import Mathlib

/-!
Verification of the hydration/nutrition chat assistant (`src/main.py`).

The embedding models the pure goal calculators, the two HTTP gateways
(weather and food lookup, over an abstract HTTP result), the per-user
profile and conversation state, the individual message handlers, and the
dispatcher that routes an incoming message text to the first matching
handler in registration order.  Rational numbers stand for Python floats
(the handlers only ever manipulate values obtained from decimal text or
small literals), and Python `int(...)` truncation toward zero is modelled
explicitly.
-/

namespace Bot

/-! ## Decimal parsing (the behaviour of Python `int(text)` / `float(text)`
on plain decimal literals; whitespace stripping, underscores, exponent
forms and the special values inf/nan are not modelled). -/

/-- Numeric value of a decimal digit character, if it is one. -/
def digit? (c : Char) : Option ℕ :=
  if '0' ≤ c ∧ c ≤ '9' then some (c.toNat - 48) else none

/-- Whether a character is a decimal digit. -/
def isDigitCh (c : Char) : Bool := (digit? c).isSome

/-- Value of a digit string (most significant first); non-digits count 0. -/
def natOfDigits (cs : List Char) : ℕ :=
  cs.foldl (fun acc c => acc * 10 + ((digit? c).getD 0)) 0

/-- Python `int(text)`: optional sign followed by a nonempty digit string. -/
def pyInt? (s : String) : Option ℤ :=
  match s.data with
  | [] => none
  | '+' :: cs =>
      if !cs.isEmpty && cs.all isDigitCh then some (natOfDigits cs) else none
  | '-' :: cs =>
      if !cs.isEmpty && cs.all isDigitCh then some (-(natOfDigits cs : ℤ)) else none
  | cs =>
      if cs.all isDigitCh then some (natOfDigits cs) else none

/-- Unsigned decimal: digits, optionally one dot with digits around it
(at least one digit overall), as accepted by Python `float`. -/
def pyDec? (cs : List Char) : Option ℚ :=
  let a := cs.takeWhile (fun c => c ≠ '.')
  let rest := cs.dropWhile (fun c => c ≠ '.')
  match rest with
  | [] =>
      if !a.isEmpty && a.all isDigitCh then some ((natOfDigits a : ℚ)) else none
  | _ :: b =>
      if b.all (fun c => c ≠ '.') && (!a.isEmpty || !b.isEmpty)
          && a.all isDigitCh && b.all isDigitCh then
        some ((natOfDigits a : ℚ) + (natOfDigits b : ℚ) / 10 ^ b.length)
      else none

/-- Python `float(text)` on plain decimal literals: optional sign, then an
unsigned decimal. -/
def pyFloat? (s : String) : Option ℚ :=
  match s.data with
  | '+' :: cs => pyDec? cs
  | '-' :: cs => (pyDec? cs).map Neg.neg
  | cs => pyDec? cs

/-! ## Goal calculators (lines 70-85 of `src/main.py`) -/

/-- Python `int(x)` on a float: truncation toward zero. -/
def pyTrunc (q : ℚ) : ℤ := if q < 0 then ⌈q⌉ else ⌊q⌋

/-- `calculate_water_goal` (src/main.py:70-77).  The source declares the
default `temperature=20.0`; its only call site passes the temperature
explicitly, and the theorems instantiate the default where the claims
mention it.  Python `//` on ints is floor division (`Int.fdiv`). -/
def calculate_water_goal (weight : ℚ) (activity_minutes : ℤ) (temperature : ℚ) : ℤ :=
  let base : ℚ := weight * 30
  let extra_for_activity : ℚ := ((Int.fdiv activity_minutes 30) * 500 : ℤ)
  let extra_for_heat : ℚ := if 25 < temperature then 500 else 0
  pyTrunc (base + extra_for_activity + extra_for_heat)

/-- `calculate_calorie_goal` (src/main.py:79-85). -/
def calculate_calorie_goal (weight height : ℚ) (age activity_minutes : ℤ) : ℤ :=
  let bmr : ℚ := 10 * weight + 6.25 * height - 5 * age
  let extra_activity : ℚ :=
    if 60 < activity_minutes then 400 else if 30 < activity_minutes then 200 else 0
  pyTrunc (bmr + extra_activity)

/-! ## HTTP gateways (lines 28-67 of `src/main.py`) -/

/-- Outcome of one HTTP round trip: a raised transport/parse exception, or a
response with a status code and an already-decoded body.  A payload whose
decoding would raise inside the `try` block is folded into `exn`. -/
inductive HttpResult (α : Type) where
  | exn
  | ok (status : ℕ) (body : α)
deriving DecidableEq

/-- `get_weather_temp` (src/main.py:28-43): `None` unless the status is 200,
in which case the body's `data["main"]["temp"]` is returned. -/
def get_weather_temp (resp : HttpResult ℚ) : Option ℚ :=
  match resp with
  | .exn => none
  | .ok status temp => if status ≠ 200 then none else some temp

/-- The `nutriments` object of an OpenFoodFacts product: the
`energy-kcal_100g` key may be absent. -/
structure Nutriments where
  energy_kcal_100g : Option ℚ
deriving DecidableEq

/-- One product of an OpenFoodFacts search result: the `product_name` key
and the `nutriments` object may each be absent. -/
structure ApiProduct where
  product_name : Option String
  nutriments : Option Nutriments
deriving DecidableEq

/-- The dictionary built by `get_food_info` on a hit. -/
structure FoodInfo where
  name : String
  calories : ℚ
deriving DecidableEq

/-- `get_food_info` (src/main.py:45-67): `None` on exception, non-200 status
or empty product list (a body without a `products` key reads as `[]`);
otherwise the first product, with `product_name` defaulting to `"Unknown"`
and the per-100g calories defaulting to `0` when absent. -/
def get_food_info (resp : HttpResult (Option (List ApiProduct))) : Option FoodInfo :=
  match resp with
  | .exn => none
  | .ok status body =>
      if status ≠ 200 then none
      else
        match body.getD [] with
        | [] => none
        | p :: _ =>
            some { name := p.product_name.getD "Unknown",
                   calories := (p.nutriments.bind Nutriments.energy_kcal_100g).getD 0 }

/-! ## Per-user state -/

/-- The aiogram FSM states declared in `src/main.py` (lines 100-115), plus
`idle` for "no state set". -/
inductive ConvState where
  | idle
  | profileWeight | profileHeight | profileAge | profileActivity | profileCity
  | logWaterAmount
  | logFoodName | logFoodAmount
  | foodInfoName
deriving DecidableEq

/-- The conversation-scoped FSM data: the keys written by
`state.update_data` across the flows. -/
structure Scratch where
  weight : Option ℚ
  height : Option ℚ
  age : Option ℤ
  activity : Option ℤ
  current_food : Option FoodInfo
deriving DecidableEq

/-- The empty FSM data, as after `state.clear()`. -/
def Scratch.empty : Scratch :=
  { weight := none, height := none, age := none, activity := none, current_food := none }

/-- One entry of `user_profiles` (src/main.py:192-204). -/
structure Profile where
  weight : ℚ
  height : ℚ
  age : ℤ
  activity : ℤ
  city : String
  temperature : ℚ
  water_goal : ℤ
  calorie_goal : ℤ
  logged_water : ℤ
  logged_calories : ℚ
  burned_calories : ℚ
deriving DecidableEq

/-- Everything the bot keeps for one user: their `user_profiles` entry (if
any), their FSM state, and their FSM data.  Distinct users' states are
disjoint, so one user suffices. -/
structure SysState where
  profile : Option Profile
  conv : ConvState
  scratch : Scratch
deriving DecidableEq

/-- The results the two external lookups would deliver during the current
turn, should the handler perform them. -/
structure Env where
  weather : HttpResult ℚ
  food : HttpResult (Option (List ApiProduct))
deriving DecidableEq

/-- The replies the handlers can produce, with the data interpolated into
the message text as payload.  `pyError` marks a turn on which the Python
handler would raise (e.g. arithmetic on a missing scratch key) and hence
neither mutate the store nor clear the state. -/
inductive Reply where
  | welcome
  | promptWeight | promptHeight | promptAge | promptActivity | promptCity
  | invalidWeight | invalidHeight | invalidAge | invalidActivity
  | profileSet (weight height : ℚ) (age activity : ℤ) (city : String)
      (temperature : ℚ) (water_goal calorie_goal : ℤ)
  | setProfileFirst
  | promptWaterAmount
  | waterGoalReached (current : ℤ)
  | waterLogged (amount remaining : ℤ)
  | invalidNumber
  | promptFoodName
  | foodFound (name : String) (calories : ℚ)
  | foodNotFound
  | somethingWentWrong
  | foodLogged (name : String) (amount : ℤ) (total newTotal : ℚ)
  | progress (logged_water : ℤ) (water_goal : ℤ) (logged_calories : ℚ)
      (calorie_goal : ℤ) (burned_calories : ℚ)
  | promptFoodInfoName
  | foodInfoResult (name : String) (calories : ℚ)
  | foodInfoNotFound
  | fallback
  | pyError
deriving DecidableEq

/-- Python `x or default` applied to an optional float: `None` and `0.0`
are falsy, every other float is kept (src/main.py:187). -/
def pyOrFloat (x : Option ℚ) (d : ℚ) : ℚ :=
  match x with
  | none => d
  | some t => if t = 0 then d else t

/-! ## Handlers, in source order -/

/-- `cmd_start` (118-126): replies with the menu, touches no state. -/
def cmd_start (s : SysState) : SysState × Reply := (s, .welcome)

/-- `cmd_set_profile` (128-135): clears state and data, enters the weight
step. -/
def cmd_set_profile (s : SysState) : SysState × Reply :=
  ({ profile := s.profile, conv := .profileWeight, scratch := Scratch.empty },
   .promptWeight)

/-- `process_weight` (137-145). -/
def process_weight (s : SysState) (text : String) : SysState × Reply :=
  match pyFloat? text with
  | some weight =>
      ({ s with conv := .profileHeight,
                scratch := { s.scratch with weight := some weight } },
       .promptHeight)
  | none => (s, .invalidWeight)

/-- `process_height` (147-155). -/
def process_height (s : SysState) (text : String) : SysState × Reply :=
  match pyFloat? text with
  | some height =>
      ({ s with conv := .profileAge,
                scratch := { s.scratch with height := some height } },
       .promptAge)
  | none => (s, .invalidHeight)

/-- `process_age` (157-165). -/
def process_age (s : SysState) (text : String) : SysState × Reply :=
  match pyInt? text with
  | some age =>
      ({ s with conv := .profileActivity,
                scratch := { s.scratch with age := some age } },
       .promptActivity)
  | none => (s, .invalidAge)

/-- `process_activity` (167-175). -/
def process_activity (s : SysState) (text : String) : SysState × Reply :=
  match pyInt? text with
  | some activity =>
      ({ s with conv := .profileCity,
                scratch := { s.scratch with activity := some activity } },
       .promptCity)
  | none => (s, .invalidActivity)

/-- `process_city` (177-219): fetches the temperature with the Python
`or 20.0` fallback, computes both goals, commits the profile, clears the
state and data, and replies with the goal summary.  If any collected field
were missing the Python handler would raise a `TypeError` inside the goal
arithmetic before the store assignment, leaving everything unchanged. -/
def process_city (s : SysState) (text : String) (env : Env) : SysState × Reply :=
  match s.scratch.weight, s.scratch.height, s.scratch.age, s.scratch.activity with
  | some weight, some height, some age, some activity =>
      let temp := pyOrFloat (get_weather_temp env.weather) 20
      let water_goal := calculate_water_goal weight activity temp
      let calorie_goal := calculate_calorie_goal weight height age activity
      let p : Profile :=
        { weight := weight, height := height, age := age, activity := activity,
          city := text, temperature := temp,
          water_goal := water_goal, calorie_goal := calorie_goal,
          logged_water := 0, logged_calories := 0, burned_calories := 0 }
      ({ profile := some p, conv := .idle, scratch := Scratch.empty },
       .profileSet weight height age activity text temp water_goal calorie_goal)
  | _, _, _, _ => (s, .pyError)

/-- `cmd_log_water` (221-228): requires a profile; on success only the FSM
state changes. -/
def cmd_log_water (s : SysState) : SysState × Reply :=
  match s.profile with
  | none => (s, .setProfileFirst)
  | some _ => ({ s with conv := .logWaterAmount }, .promptWaterAmount)

/-- `process_log_water` (230-250). -/
def process_log_water (s : SysState) (text : String) : SysState × Reply :=
  match s.profile with
  | none =>
      ({ profile := none, conv := .idle, scratch := Scratch.empty }, .setProfileFirst)
  | some p =>
      match pyInt? text with
      | none => (s, .invalidNumber)
      | some amount =>
          let p2 := { p with logged_water := p.logged_water + amount }
          let current := p2.logged_water
          let remaining := max (p2.water_goal - current) 0
          let s2 : SysState :=
            { profile := some p2, conv := .idle, scratch := Scratch.empty }
          if remaining ≤ 0 then (s2, .waterGoalReached current)
          else (s2, .waterLogged amount remaining)

/-- `cmd_log_food` (252-259). -/
def cmd_log_food (s : SysState) : SysState × Reply :=
  match s.profile with
  | none => (s, .setProfileFirst)
  | some _ => ({ s with conv := .logFoodName }, .promptFoodName)

/-- `process_log_food_name` (261-273). -/
def process_log_food_name (s : SysState) (_text : String) (env : Env) :
    SysState × Reply :=
  match get_food_info env.food with
  | some fi =>
      ({ s with conv := .logFoodAmount,
                scratch := { s.scratch with current_food := some fi } },
       .foodFound fi.name fi.calories)
  | none => (s, .foodNotFound)

/-- `process_log_food_amount` (275-296): parses the grams, needs
`current_food` in the FSM data, and indexes `user_profiles` directly
(raising a `KeyError` if the user has no profile). -/
def process_log_food_amount (s : SysState) (text : String) : SysState × Reply :=
  match pyInt? text with
  | none => (s, .invalidNumber)
  | some amount =>
      match s.scratch.current_food with
      | none =>
          ({ s with conv := .idle, scratch := Scratch.empty }, .somethingWentWrong)
      | some fi =>
          match s.profile with
          | none => (s, .pyError)
          | some p =>
              let total := fi.calories / 100 * amount
              let p2 := { p with logged_calories := p.logged_calories + total }
              ({ profile := some p2, conv := .idle, scratch := Scratch.empty },
               .foodLogged fi.name amount total p2.logged_calories)

/-- `cmd_check_progress` (298-312): read-only. -/
def cmd_check_progress (s : SysState) : SysState × Reply :=
  match s.profile with
  | none => (s, .setProfileFirst)
  | some p =>
      (s, .progress p.logged_water p.water_goal p.logged_calories
            p.calorie_goal p.burned_calories)

/-- `cmd_check_food_info` (315-318): no profile check. -/
def cmd_check_food_info (s : SysState) : SysState × Reply :=
  ({ s with conv := .foodInfoName }, .promptFoodInfoName)

/-- `process_food_info` (320-334): clears state, never touches the store. -/
def process_food_info (s : SysState) (_text : String) (env : Env) :
    SysState × Reply :=
  let s2 : SysState := { profile := s.profile, conv := .idle, scratch := Scratch.empty }
  match get_food_info env.food with
  | some fi => (s2, .foodInfoResult fi.name fi.calories)
  | none => (s2, .foodInfoNotFound)

/-- `fallback_handler` (336-341). -/
def fallback_handler (s : SysState) : SysState × Reply := (s, .fallback)

/-- The aiogram dispatcher: handlers are tried in registration order, the
first one whose filter (a text equality or an FSM-state equality) matches
runs.  `Command("start")` is modelled as the exact text `"/start"`. -/
def handle (s : SysState) (text : String) (env : Env) : SysState × Reply :=
  if text = "/start" then cmd_start s
  else if text = "Set Profile" then cmd_set_profile s
  else if s.conv = .profileWeight then process_weight s text
  else if s.conv = .profileHeight then process_height s text
  else if s.conv = .profileAge then process_age s text
  else if s.conv = .profileActivity then process_activity s text
  else if s.conv = .profileCity then process_city s text env
  else if text = "Log Water" then cmd_log_water s
  else if s.conv = .logWaterAmount then process_log_water s text
  else if text = "Log Food" then cmd_log_food s
  else if s.conv = .logFoodName then process_log_food_name s text env
  else if s.conv = .logFoodAmount then process_log_food_amount s text
  else if text = "Check Progress" then cmd_check_progress s
  else if text = "Check Food Info" then cmd_check_food_info s
  else if s.conv = .foodInfoName then process_food_info s text env
  else fallback_handler s

/-- States reachable from a fresh user (no profile, no FSM state, no data)
by any sequence of messages and lookup outcomes. -/
inductive Reachable : SysState → Prop where
  | init : Reachable { profile := none, conv := .idle, scratch := Scratch.empty }
  | step (s : SysState) (text : String) (env : Env) :
      Reachable s → Reachable (handle s text env).1

/-- A non-negativity invariant over one user's state: the stored profile's
water and calorie logs, and any calorie value waiting in the FSM data, are
all non-negative. -/
def NonNegState (s : SysState) : Prop :=
  (∀ p : Profile, s.profile = some p → 0 ≤ p.logged_water ∧ 0 ≤ p.logged_calories) ∧
  (∀ fi : FoodInfo, s.scratch.current_food = some fi → 0 ≤ fi.calories)

/-- An environment in which both external lookups raise. -/
def envNone : Env := { weather := .exn, food := .exn }

/-- A committed profile used to instantiate the universally quantified
store theorems. -/
def sampleProfile : Profile :=
  { weight := 70, height := 170, age := 30, activity := 45, city := "Riga",
    temperature := 20, water_goal := 2600, calorie_goal := 1812,
    logged_water := 0, logged_calories := 0, burned_calories := 0 }

/-! ## Arithmetic helper lemmas -/

/-- Python `//` by 30 is the floor of the exact quotient. -/
lemma fdiv_thirty (a : ℤ) : Int.fdiv a 30 = ⌊(a : ℚ) / 30⌋ := by
  rw [Int.fdiv_eq_ediv a (by norm_num : (0:ℤ) ≤ 30)]
  rw [show ((30:ℚ)) = ((30:ℕ) : ℚ) by norm_num]
  rw [Rat.floor_intCast_div_natCast a 30]
  norm_num

/-- Python `int()` agrees with the floor on non-negative values. -/
lemma pyTrunc_eq_floor {q : ℚ} (hq : 0 ≤ q) : pyTrunc q = ⌊q⌋ := by
  unfold pyTrunc
  rw [if_neg (not_lt.2 hq)]

/-! ## C1 -/

/-- C1: for weight > 0, activity ≥ 0 and any temperature, the water goal is
`floor(weight*30) + floor(activity/30)*500 + (500 if temperature > 25 else 0)`,
and at the default temperature 20.0 the heat bonus vanishes. -/
theorem calculate_water_goal_formula (w : ℚ) (a : ℤ) (t : ℚ)
    (hw : 0 < w) (ha : 0 ≤ a) :
    calculate_water_goal w a t
        = ⌊w * 30⌋ + ⌊(a : ℚ) / 30⌋ * 500 + (if 25 < t then 500 else 0) ∧
      calculate_water_goal w a 20
        = ⌊w * 30⌋ + ⌊(a : ℚ) / 30⌋ * 500 := by
  have key : ∀ t' : ℚ, calculate_water_goal w a t'
      = ⌊w * 30⌋ + ⌊(a : ℚ) / 30⌋ * 500 + (if 25 < t' then 500 else 0) := by
    intro t'
    have hfd : Int.fdiv a 30 = ⌊(a : ℚ) / 30⌋ := fdiv_thirty a
    set k : ℤ := Int.fdiv a 30 * 500 + (if 25 < t' then 500 else 0) with hk
    have hcast : ((Int.fdiv a 30 * 500 : ℤ) : ℚ) + (if 25 < t' then (500:ℚ) else 0)
        = (k : ℚ) := by
      by_cases h : 25 < t' <;> simp only [hk, h, if_true, if_false] <;>
        push_cast <;> ring
    have hknn : 0 ≤ k := by
      have h1 : 0 ≤ Int.fdiv a 30 := Int.fdiv_nonneg ha (by norm_num)
      have h2 : (0:ℤ) ≤ if 25 < t' then 500 else 0 := by
        by_cases h : 25 < t' <;> simp [h]
      rw [hk]; nlinarith
    have hq : (0:ℚ) ≤ w * 30 + (k : ℚ) := by
      have hk0 : (0:ℚ) ≤ (k:ℚ) := by exact_mod_cast hknn
      nlinarith
    calc calculate_water_goal w a t'
        = pyTrunc (w * 30 + ((Int.fdiv a 30 * 500 : ℤ) : ℚ)
            + (if 25 < t' then (500:ℚ) else 0)) := rfl
      _ = pyTrunc (w * 30 + (k : ℚ)) := by rw [add_assoc, hcast]
      _ = ⌊w * 30 + (k : ℚ)⌋ := pyTrunc_eq_floor hq
      _ = ⌊w * 30⌋ + k := Int.floor_add_int _ _
      _ = ⌊w * 30⌋ + ⌊(a : ℚ) / 30⌋ * 500 + (if 25 < t' then 500 else 0) := by
            rw [hk, hfd, add_assoc]
  refine ⟨key t, ?_⟩
  rw [key 20]
  norm_num

/-- Witness for C1 at weight 70, activity 45, temperature 30. -/
theorem calculate_water_goal_formula_witness :
    calculate_water_goal 70 45 30
        = ⌊(70:ℚ) * 30⌋ + ⌊((45:ℤ) : ℚ) / 30⌋ * 500
            + (if (25:ℚ) < 30 then 500 else 0) ∧
      calculate_water_goal 70 45 20
        = ⌊(70:ℚ) * 30⌋ + ⌊((45:ℤ) : ℚ) / 30⌋ * 500 :=
  calculate_water_goal_formula 70 45 30 (by norm_num) (by norm_num)

/-! ## C2 -/

/-- C2 counterexample: at weight 0.05, height 0, age 1, activity 0 the BMR
is -4.5; Python `int()` truncates it to -4, while the claimed floor is -5. -/
theorem calculate_calorie_goal_not_floor :
    calculate_calorie_goal (1/20) 0 1 0
      ≠ ⌊10 * ((1:ℚ)/20) + 6.25 * 0 - 5 * ((1:ℤ) : ℚ) + 0⌋ := by
  unfold calculate_calorie_goal pyTrunc
  norm_num [Int.ceil_eq_iff]

/-- C2 (amended): whenever the BMR is non-negative the calorie goal is
`floor(bmr + bonus)` with the claimed activity bonus (Python `int()` only
deviates from the floor on negative values, where it is the ceiling), and
`calculate_calorie_goal 70 170 30 45 = 1812`. -/
theorem calculate_calorie_goal_floor (w h : ℚ) (age act : ℤ)
    (hbmr : 0 ≤ 10 * w + 6.25 * h - 5 * (age : ℚ)) :
    calculate_calorie_goal w h age act
        = ⌊10 * w + 6.25 * h - 5 * (age : ℚ)
            + (if 60 < act then (400:ℚ) else if 30 < act then 200 else 0)⌋ ∧
      calculate_calorie_goal 70 170 30 45 = 1812 := by
  constructor
  · have hbonus : (0:ℚ) ≤ if 60 < act then (400:ℚ) else if 30 < act then 200 else 0 := by
      by_cases h1 : 60 < act <;> by_cases h2 : 30 < act <;> simp [h1, h2]
    exact pyTrunc_eq_floor (by nlinarith)
  · unfold calculate_calorie_goal pyTrunc
    norm_num

/-- Witness for C2's amended theorem at the spec's worked example. -/
theorem calculate_calorie_goal_floor_witness :
    calculate_calorie_goal 70 170 30 45
        = ⌊10 * (70:ℚ) + 6.25 * 170 - 5 * ((30:ℤ) : ℚ)
            + (if (60:ℤ) < 45 then (400:ℚ) else if (30:ℤ) < 45 then 200 else 0)⌋ ∧
      calculate_calorie_goal 70 170 30 45 = 1812 :=
  calculate_calorie_goal_floor 70 170 30 45 (by norm_num)

/-! ## C3 -/

/-- C3 counterexample: the spec's expected value 2600 is wrong. -/
theorem calculate_water_goal_example_ne :
    calculate_water_goal 70 45 30 ≠ 2600 := by
  unfold calculate_water_goal pyTrunc
  rw [show Int.fdiv 45 30 = 1 from by decide]
  norm_num

/-- C3 (amended): `calculate_water_goal(70, 45, 30.0)` returns 3100 —
2100 base + 500 activity bonus (45 // 30 = 1) + 500 heat bonus. -/
theorem calculate_water_goal_example :
    calculate_water_goal 70 45 30 = 3100 := by
  unfold calculate_water_goal pyTrunc
  rw [show Int.fdiv 45 30 = 1 from by decide]
  norm_num

/-! ## C10 -/

/-- C10: on a 200 response with a non-empty product list `get_food_info`
returns a hit even when the first product lacks a name or a calorie field,
substituting `"Unknown"` and `0`; it returns `None` exactly on an
exception, a non-200 status, or an empty (or absent) product list. -/
theorem get_food_info_defaults (body : Option (List ApiProduct))
    (p : ApiProduct) (rest : List ApiProduct)
    (hbody : body.getD [] = p :: rest)
    (hname : p.product_name = none)
    (hcal : p.nutriments.bind Nutriments.energy_kcal_100g = none) :
    get_food_info (HttpResult.ok 200 body) = some ⟨"Unknown", 0⟩ ∧
      ∀ resp : HttpResult (Option (List ApiProduct)),
        get_food_info resp = none ↔
          resp = .exn ∨ ∃ st b, resp = .ok st b ∧ (st ≠ 200 ∨ b.getD [] = []) := by
  constructor
  · simp [get_food_info, hbody, hname, hcal]
  · intro resp
    cases resp with
    | exn => exact iff_of_true rfl (Or.inl rfl)
    | ok st b =>
        by_cases hst : st = 200
        · subst hst
          cases hb : b.getD [] with
          | nil =>
              exact iff_of_true (by simp [get_food_info, hb])
                (Or.inr ⟨200, b, rfl, Or.inr hb⟩)
          | cons q qs =>
              refine iff_of_false (by simp [get_food_info, hb]) ?_
              rintro (hexn | ⟨st2, b2, heq, hor⟩)
              · exact HttpResult.noConfusion hexn
              · cases heq
                rcases hor with h | h
                · exact h rfl
                · rw [hb] at h
                  exact List.noConfusion h
        · exact iff_of_true (by simp [get_food_info, hst])
            (Or.inr ⟨st, b, rfl, Or.inl hst⟩)

/-- Witness for C10 with a product carrying neither name nor calories. -/
theorem get_food_info_defaults_witness :
    get_food_info (HttpResult.ok 200 (some [⟨none, none⟩])) = some ⟨"Unknown", 0⟩ ∧
      ∀ resp : HttpResult (Option (List ApiProduct)),
        get_food_info resp = none ↔
          resp = .exn ∨ ∃ st b, resp = .ok st b ∧ (st ≠ 200 ∨ b.getD [] = []) :=
  get_food_info_defaults (some [⟨none, none⟩]) ⟨none, none⟩ [] rfl rfl rfl

/-! ## Dispatcher routing helpers -/

/-- A text that parses as an integer is none of the registered button or
command texts. -/
lemma pyInt?_some_ne {text : String} {a : ℤ} (h : pyInt? text = some a)
    (t : String) (ht : pyInt? t = none) : text ≠ t := by
  rintro rfl
  rw [ht] at h
  exact Option.noConfusion h

/-- A message arriving in the water-amount state whose text is not one of
the earlier-registered filters reaches `process_log_water`. -/
lemma handle_to_process_log_water (s : SysState) (text : String) (env : Env)
    (hconv : s.conv = .logWaterAmount)
    (h1 : text ≠ "/start") (h2 : text ≠ "Set Profile") (h3 : text ≠ "Log Water") :
    handle s text env = process_log_water s text := by
  obtain ⟨prof, conv, scr⟩ := s
  dsimp only at hconv
  subst hconv
  unfold handle
  dsimp only
  rw [if_neg h1, if_neg h2, if_neg (by decide), if_neg (by decide), if_neg (by decide),
      if_neg (by decide), if_neg (by decide), if_neg h3, if_pos rfl]

/-! ## C4 -/

/-- C4: a water-amount message from a user with a profile whose text parses
as an integer adds the amount to the logged water, reports the remaining
millilitres floored at zero (never negative), and emits the goal-reached
message exactly when the remainder is zero. -/
theorem process_log_water_spec (s : SysState) (p : Profile) (text : String)
    (amount : ℤ) (env : Env)
    (hconv : s.conv = .logWaterAmount) (hp : s.profile = some p)
    (hparse : pyInt? text = some amount) :
    (handle s text env).1.profile
        = some { p with logged_water := p.logged_water + amount } ∧
      0 ≤ max (p.water_goal - (p.logged_water + amount)) 0 ∧
      (handle s text env).2
        = (if max (p.water_goal - (p.logged_water + amount)) 0 = 0
           then Reply.waterGoalReached (p.logged_water + amount)
           else Reply.waterLogged amount
                  (max (p.water_goal - (p.logged_water + amount)) 0)) := by
  have h1 := pyInt?_some_ne hparse "/start" (by decide)
  have h2 := pyInt?_some_ne hparse "Set Profile" (by decide)
  have h3 := pyInt?_some_ne hparse "Log Water" (by decide)
  rw [handle_to_process_log_water s text env hconv h1 h2 h3]
  obtain ⟨prof, conv, scr⟩ := s
  dsimp only at hp
  subst hp
  unfold process_log_water
  dsimp only
  rw [hparse]
  dsimp only
  refine ⟨?_, le_max_right _ _, ?_⟩
  · split <;> rfl
  · split_ifs <;>
      first
        | rfl
        | (rename_i hle heq
           exact absurd (le_antisymm hle (le_max_right _ _)) heq)
        | (rename_i hle heq
           exact absurd (le_of_eq heq) hle)

/-- Witness for C4: logging 250 ml against a 2600 ml goal. -/
theorem process_log_water_spec_witness :
    (handle ⟨some sampleProfile, .logWaterAmount, Scratch.empty⟩ "250" envNone).1.profile
        = some { sampleProfile with
                   logged_water := sampleProfile.logged_water + 250 } ∧
      0 ≤ max (sampleProfile.water_goal - (sampleProfile.logged_water + 250)) 0 ∧
      (handle ⟨some sampleProfile, .logWaterAmount, Scratch.empty⟩ "250" envNone).2
        = (if max (sampleProfile.water_goal - (sampleProfile.logged_water + 250)) 0 = 0
           then Reply.waterGoalReached (sampleProfile.logged_water + 250)
           else Reply.waterLogged 250
                  (max (sampleProfile.water_goal - (sampleProfile.logged_water + 250)) 0)) :=
  process_log_water_spec ⟨some sampleProfile, .logWaterAmount, Scratch.empty⟩
    sampleProfile "250" 250 envNone rfl rfl (by decide)

/-! ## C5 -/

/-- C5: the weather lookup succeeds with 0.0 °C, yet the committed profile
stores the 20.0 default, because `get_weather_temp(city) or 20.0` treats
the float `0.0` as falsy.  (The lookup-failure half of the claim does hold:
the same default is substituted and the profile is still committed.) -/
theorem process_city_zero_temp_default :
    get_weather_temp (HttpResult.ok 200 0) = some 0 ∧
      (handle ⟨none, ConvState.profileCity,
          ⟨some 70, some 170, some 30, some 45, none⟩⟩ "Freezetown"
          ⟨HttpResult.ok 200 0, HttpResult.exn⟩).1.profile
        = some { weight := 70, height := 170, age := 30, activity := 45,
                 city := "Freezetown", temperature := 20,
                 water_goal := 2600, calorie_goal := 1812,
                 logged_water := 0, logged_calories := 0, burned_calories := 0 } := by
  constructor
  · rfl
  · unfold handle
    rw [if_neg (by decide), if_neg (by decide), if_neg (by decide), if_neg (by decide),
        if_neg (by decide), if_neg (by decide), if_pos rfl]
    unfold process_city
    dsimp only
    rw [show pyOrFloat (get_weather_temp (HttpResult.ok 200 0)) 20 = 20 from by
          norm_num [pyOrFloat, get_weather_temp]]
    rw [show calculate_water_goal 70 45 20 = 2600 from by
          unfold calculate_water_goal pyTrunc
          rw [show Int.fdiv 45 30 = 1 from by decide]
          norm_num]
    rw [show calculate_calorie_goal 70 170 30 45 = 1812 from by
          unfold calculate_calorie_goal pyTrunc
          norm_num]

/-! ## C6 -/

/-- C6: a "Log Water" press while Idle without a profile replies "set
profile first" and changes nothing, and a message in the water-amount state
without a profile replies the same and resets to Idle without logging
anything (the profile stays absent either way). -/
theorem log_water_requires_profile (s s2 : SysState) (env env2 : Env) (text : String)
    (hp : s.profile = none) (hidle : s.conv = .idle)
    (hp2 : s2.profile = none) (hconv2 : s2.conv = .logWaterAmount)
    (h1 : text ≠ "/start") (h2 : text ≠ "Set Profile") (h3 : text ≠ "Log Water") :
    handle s "Log Water" env = (s, .setProfileFirst) ∧
      handle s2 text env2
        = ({ profile := none, conv := .idle, scratch := Scratch.empty },
           .setProfileFirst) := by
  constructor
  · obtain ⟨prof, conv, scr⟩ := s
    dsimp only at hp hidle
    subst hp
    subst hidle
    unfold handle
    dsimp only
    rw [if_neg (by decide), if_neg (by decide), if_neg (by decide), if_neg (by decide),
        if_neg (by decide), if_neg (by decide), if_neg (by decide), if_pos rfl]
    rfl
  · rw [handle_to_process_log_water s2 text env2 hconv2 h1 h2 h3]
    obtain ⟨prof, conv, scr⟩ := s2
    dsimp only at hp2
    subst hp2
    rfl

/-- Witness for C6 with a fresh user. -/
theorem log_water_requires_profile_witness :
    handle ⟨none, .idle, Scratch.empty⟩ "Log Water" envNone
        = (⟨none, .idle, Scratch.empty⟩, .setProfileFirst) ∧
      handle ⟨none, .logWaterAmount, Scratch.empty⟩ "250" envNone
        = ({ profile := none, conv := .idle, scratch := Scratch.empty },
           .setProfileFirst) :=
  log_water_requires_profile ⟨none, .idle, Scratch.empty⟩
    ⟨none, .logWaterAmount, Scratch.empty⟩ envNone envNone "250"
    rfl rfl rfl rfl (by decide) (by decide) (by decide)

/-! ## C8 -/

/-- C8 counterexample: the menu text "Log Water" sent while the weight step
is pending is consumed by `process_weight` — the state stays AwaitingWeight
(not Idle) and the accumulated scratch value survives. -/
theorem menu_button_not_cancel :
    handle ⟨none, .profileWeight, ⟨some 9, none, none, none, none⟩⟩ "Log Water"
        ⟨HttpResult.exn, HttpResult.exn⟩
      = (⟨none, .profileWeight, ⟨some 9, none, none, none, none⟩⟩, .invalidWeight) := by
  unfold handle
  rw [if_neg (by decide), if_neg (by decide), if_pos rfl]
  unfold process_weight
  rw [show pyFloat? "Log Water" = none from by decide]

/-- C8 (amended): the "Set Profile" trigger, from every conversation state,
discards the scratch data and restarts the flow at the weight prompt;
the other menu buttons do not cancel a pending flow. -/
theorem set_profile_restarts (s : SysState) (env : Env) :
    handle s "Set Profile" env
      = ({ profile := s.profile, conv := .profileWeight, scratch := Scratch.empty },
         .promptWeight) := by
  unfold handle
  rw [if_neg (by decide : ¬("Set Profile" = "/start")), if_pos rfl]
  rfl

/-! ## C9 -/

/-- C9 counterexample: "-5" is not a positive decimal, yet the weight step
accepts it, stores weight -5 and advances to the height prompt. -/
theorem weight_negative_accepted :
    handle ⟨none, .profileWeight, Scratch.empty⟩ "-5" ⟨HttpResult.exn, HttpResult.exn⟩
      = (⟨none, .profileHeight, ⟨some (-5), none, none, none, none⟩⟩,
         .promptHeight) := by
  unfold handle
  rw [if_neg (by decide), if_neg (by decide), if_pos rfl]
  unfold process_weight
  rw [show pyFloat? "-5" = some (-5) from rfl]
  rfl

/-- C9 (amended): in the weight step exactly the texts parseable as a
decimal number — of any sign — are accepted and stored, advancing to the
height prompt; unparseable text leaves the state and data unchanged and
re-prompts. -/
theorem weight_step_spec (s : SysState) (text : String) (env : Env)
    (hconv : s.conv = .profileWeight)
    (h1 : text ≠ "/start") (h2 : text ≠ "Set Profile") :
    handle s text env
      = match pyFloat? text with
        | some w =>
            ({ s with conv := .profileHeight,
                      scratch := { s.scratch with weight := some w } },
             .promptHeight)
        | none => (s, .invalidWeight) := by
  obtain ⟨prof, conv, scr⟩ := s
  dsimp only at hconv
  subst hconv
  unfold handle
  rw [if_neg h1, if_neg h2, if_pos rfl]
  rfl

/-! ## C7 -/

/-- `cmd_set_profile` preserves the non-negativity invariant. -/
lemma nonneg_cmd_set_profile (s : SysState) (hs : NonNegState s) :
    NonNegState (cmd_set_profile s).1 :=
  ⟨hs.1, fun _fi hfi => Option.noConfusion hfi⟩

/-- `process_weight` preserves the non-negativity invariant. -/
lemma nonneg_process_weight (s : SysState) (text : String) (hs : NonNegState s) :
    NonNegState (process_weight s text).1 := by
  unfold process_weight
  cases pyFloat? text with
  | none => exact hs
  | some w => exact ⟨hs.1, hs.2⟩

/-- `process_height` preserves the non-negativity invariant. -/
lemma nonneg_process_height (s : SysState) (text : String) (hs : NonNegState s) :
    NonNegState (process_height s text).1 := by
  unfold process_height
  cases pyFloat? text with
  | none => exact hs
  | some h => exact ⟨hs.1, hs.2⟩

/-- `process_age` preserves the non-negativity invariant. -/
lemma nonneg_process_age (s : SysState) (text : String) (hs : NonNegState s) :
    NonNegState (process_age s text).1 := by
  unfold process_age
  cases pyInt? text with
  | none => exact hs
  | some age => exact ⟨hs.1, hs.2⟩

/-- `process_activity` preserves the non-negativity invariant. -/
lemma nonneg_process_activity (s : SysState) (text : String) (hs : NonNegState s) :
    NonNegState (process_activity s text).1 := by
  unfold process_activity
  cases pyInt? text with
  | none => exact hs
  | some act => exact ⟨hs.1, hs.2⟩

/-- `process_city` preserves the non-negativity invariant: a freshly
committed profile has zero logs. -/
lemma nonneg_process_city (s : SysState) (text : String) (env : Env)
    (hs : NonNegState s) : NonNegState (process_city s text env).1 := by
  unfold process_city
  cases s.scratch.weight with
  | none => exact hs
  | some w =>
    cases s.scratch.height with
    | none => exact hs
    | some h =>
      cases s.scratch.age with
      | none => exact hs
      | some age =>
        cases s.scratch.activity with
        | none => exact hs
        | some act =>
          dsimp only
          exact ⟨fun q hq => (Option.some.inj hq) ▸ ⟨le_refl 0, le_refl 0⟩,
                 fun fi hfi => Option.noConfusion hfi⟩

/-- `cmd_log_water` preserves the non-negativity invariant. -/
lemma nonneg_cmd_log_water (s : SysState) (hs : NonNegState s) :
    NonNegState (cmd_log_water s).1 := by
  unfold cmd_log_water
  cases hp : s.profile with
  | none => exact hs
  | some p => exact ⟨fun q hq => hs.1 q (hp.trans hq), hs.2⟩

/-- `process_log_water` preserves the non-negativity invariant when the
parsed amount is non-negative. -/
lemma nonneg_process_log_water (s : SysState) (text : String)
    (hs : NonNegState s) (htext : ∀ a : ℤ, pyInt? text = some a → 0 ≤ a) :
    NonNegState (process_log_water s text).1 := by
  unfold process_log_water
  cases hp : s.profile with
  | none =>
      exact ⟨fun q hq => Option.noConfusion hq, fun fi hfi => Option.noConfusion hfi⟩
  | some p =>
    cases ht : pyInt? text with
    | none => exact hs
    | some amount =>
      have ha := htext amount ht
      have hpw := hs.1 p hp
      dsimp only
      split <;>
        exact ⟨fun q hq => (Option.some.inj hq) ▸ ⟨add_nonneg hpw.1 ha, hpw.2⟩,
               fun fi hfi => Option.noConfusion hfi⟩

/-- `cmd_log_food` preserves the non-negativity invariant. -/
lemma nonneg_cmd_log_food (s : SysState) (hs : NonNegState s) :
    NonNegState (cmd_log_food s).1 := by
  unfold cmd_log_food
  cases hp : s.profile with
  | none => exact hs
  | some p => exact ⟨fun q hq => hs.1 q (hp.trans hq), hs.2⟩

/-- `process_log_food_name` preserves the non-negativity invariant when the
looked-up calorie value is non-negative. -/
lemma nonneg_process_log_food_name (s : SysState) (text : String) (env : Env)
    (hs : NonNegState s)
    (hfood : ∀ fi : FoodInfo, get_food_info env.food = some fi → 0 ≤ fi.calories) :
    NonNegState (process_log_food_name s text env).1 := by
  unfold process_log_food_name
  cases hf : get_food_info env.food with
  | none => exact hs
  | some fi =>
      exact ⟨hs.1, fun fi2 hfi2 => (Option.some.inj hfi2) ▸ hfood fi hf⟩

/-- `process_log_food_amount` preserves the non-negativity invariant when
the parsed amount is non-negative. -/
lemma nonneg_process_log_food_amount (s : SysState) (text : String)
    (hs : NonNegState s) (htext : ∀ a : ℤ, pyInt? text = some a → 0 ≤ a) :
    NonNegState (process_log_food_amount s text).1 := by
  unfold process_log_food_amount
  cases ht : pyInt? text with
  | none => exact hs
  | some amount =>
    cases hcf : s.scratch.current_food with
    | none => exact ⟨hs.1, fun fi hfi => Option.noConfusion hfi⟩
    | some fi =>
      cases hp : s.profile with
      | none => exact hs
      | some p =>
        have ha := htext amount ht
        have hcal := hs.2 fi hcf
        have hpw := hs.1 p hp
        have htot : (0:ℚ) ≤ fi.calories / 100 * amount :=
          mul_nonneg (div_nonneg hcal (by norm_num)) (by exact_mod_cast ha)
        dsimp only
        exact ⟨fun q hq => (Option.some.inj hq) ▸ ⟨hpw.1, add_nonneg hpw.2 htot⟩,
               fun fi2 hfi2 => Option.noConfusion hfi2⟩

/-- `cmd_check_progress` preserves the non-negativity invariant. -/
lemma nonneg_cmd_check_progress (s : SysState) (hs : NonNegState s) :
    NonNegState (cmd_check_progress s).1 := by
  unfold cmd_check_progress
  cases s.profile with
  | none => exact hs
  | some p => exact hs

/-- `process_food_info` preserves the non-negativity invariant. -/
lemma nonneg_process_food_info (s : SysState) (text : String) (env : Env)
    (hs : NonNegState s) : NonNegState (process_food_info s text env).1 := by
  unfold process_food_info
  dsimp only
  cases get_food_info env.food with
  | none => exact ⟨hs.1, fun fi hfi => Option.noConfusion hfi⟩
  | some _fi => exact ⟨hs.1, fun fi2 hfi2 => Option.noConfusion hfi2⟩

/-- C7 counterexample: the water-amount step accepts the negative integer
"-100", so a store state with `logged_water = -100 < 0` is reachable from a
fresh user — the claimed reachable-state invariant fails. -/
theorem negative_logged_water_reachable :
    ∃ s : SysState, Reachable s ∧
      ∃ p : Profile, s.profile = some p ∧ p.logged_water < 0 := by
  have e1 : (handle ⟨none, .idle, Scratch.empty⟩ "Set Profile" envNone).1
      = ⟨none, .profileWeight, Scratch.empty⟩ := by
    unfold handle
    rw [if_neg (by decide), if_pos rfl]
    rfl
  have e2 : (handle ⟨none, .profileWeight, Scratch.empty⟩ "70" envNone).1
      = ⟨none, .profileHeight, ⟨some 70, none, none, none, none⟩⟩ := by
    unfold handle
    rw [if_neg (by decide), if_neg (by decide), if_pos rfl]
    unfold process_weight
    rw [show pyFloat? "70" = some 70 from rfl]
    rfl
  have e3 : (handle ⟨none, .profileHeight, ⟨some 70, none, none, none, none⟩⟩
        "170" envNone).1
      = ⟨none, .profileAge, ⟨some 70, some 170, none, none, none⟩⟩ := by
    unfold handle
    rw [if_neg (by decide), if_neg (by decide), if_neg (by decide), if_pos rfl]
    unfold process_height
    rw [show pyFloat? "170" = some 170 from rfl]
  have e4 : (handle ⟨none, .profileAge, ⟨some 70, some 170, none, none, none⟩⟩
        "30" envNone).1
      = ⟨none, .profileActivity, ⟨some 70, some 170, some 30, none, none⟩⟩ := by
    unfold handle
    rw [if_neg (by decide), if_neg (by decide), if_neg (by decide), if_neg (by decide),
        if_pos rfl]
    unfold process_age
    rw [show pyInt? "30" = some 30 from rfl]
  have e5 : (handle ⟨none, .profileActivity, ⟨some 70, some 170, some 30, none, none⟩⟩
        "45" envNone).1
      = ⟨none, .profileCity, ⟨some 70, some 170, some 30, some 45, none⟩⟩ := by
    unfold handle
    rw [if_neg (by decide), if_neg (by decide), if_neg (by decide), if_neg (by decide),
        if_neg (by decide), if_pos rfl]
    unfold process_activity
    rw [show pyInt? "45" = some 45 from rfl]
  have e6 : (handle ⟨none, .profileCity, ⟨some 70, some 170, some 30, some 45, none⟩⟩
        "Riga" envNone).1
      = ⟨some sampleProfile, .idle, Scratch.empty⟩ := by
    unfold handle
    rw [if_neg (by decide), if_neg (by decide), if_neg (by decide), if_neg (by decide),
        if_neg (by decide), if_neg (by decide), if_pos rfl]
    unfold process_city
    dsimp only
    rw [show pyOrFloat (get_weather_temp envNone.weather) 20 = 20 from rfl]
    rw [show calculate_water_goal 70 45 20 = 2600 from by
          unfold calculate_water_goal pyTrunc
          rw [show Int.fdiv 45 30 = 1 from by decide]
          norm_num]
    rw [show calculate_calorie_goal 70 170 30 45 = 1812 from by
          unfold calculate_calorie_goal pyTrunc
          norm_num]
    rfl
  have e7 : (handle ⟨some sampleProfile, .idle, Scratch.empty⟩ "Log Water" envNone).1
      = ⟨some sampleProfile, .logWaterAmount, Scratch.empty⟩ := by
    unfold handle
    rw [if_neg (by decide), if_neg (by decide), if_neg (by decide), if_neg (by decide),
        if_neg (by decide), if_neg (by decide), if_neg (by decide), if_pos rfl]
    rfl
  have e8 : (handle ⟨some sampleProfile, .logWaterAmount, Scratch.empty⟩
        "-100" envNone).1
      = ⟨some { sampleProfile with logged_water := -100 }, .idle, Scratch.empty⟩ := by
    rw [handle_to_process_log_water _ "-100" envNone rfl
          (by decide) (by decide) (by decide)]
    unfold process_log_water
    dsimp only
    rw [show pyInt? "-100" = some (-100) from rfl]
    dsimp only
    split <;> rfl
  refine ⟨⟨some { sampleProfile with logged_water := -100 }, .idle, Scratch.empty⟩,
    ?_, { sampleProfile with logged_water := -100 }, rfl, by decide⟩
  have r1 := Reachable.step _ "Set Profile" envNone Reachable.init
  rw [e1] at r1
  have r2 := Reachable.step _ "70" envNone r1
  rw [e2] at r2
  have r3 := Reachable.step _ "170" envNone r2
  rw [e3] at r3
  have r4 := Reachable.step _ "30" envNone r3
  rw [e4] at r4
  have r5 := Reachable.step _ "45" envNone r4
  rw [e5] at r5
  have r6 := Reachable.step _ "Riga" envNone r5
  rw [e6] at r6
  have r7 := Reachable.step _ "Log Water" envNone r6
  rw [e7] at r7
  have r8 := Reachable.step _ "-100" envNone r7
  rw [e8] at r8
  exact r8

set_option maxHeartbeats 2000000 in
/-- C7 (amended): one dispatcher step preserves the non-negativity
invariant provided the message's parsed integer (if any) is non-negative
and the calorie value of a successful food lookup (if any) is
non-negative; with negative inputs the original invariant is refuted
above. -/
theorem nonneg_invariant_step (s : SysState) (text : String) (env : Env)
    (hs : NonNegState s)
    (htext : ∀ a : ℤ, pyInt? text = some a → 0 ≤ a)
    (hfood : ∀ fi : FoodInfo, get_food_info env.food = some fi → 0 ≤ fi.calories) :
    NonNegState (handle s text env).1 := by
  unfold handle
  by_cases h1 : text = "/start"
  · rw [if_pos h1]
    exact hs
  rw [if_neg h1]
  by_cases h2 : text = "Set Profile"
  · rw [if_pos h2]
    exact nonneg_cmd_set_profile s hs
  rw [if_neg h2]
  by_cases h3 : s.conv = .profileWeight
  · rw [if_pos h3]
    exact nonneg_process_weight s text hs
  rw [if_neg h3]
  by_cases h4 : s.conv = .profileHeight
  · rw [if_pos h4]
    exact nonneg_process_height s text hs
  rw [if_neg h4]
  by_cases h5 : s.conv = .profileAge
  · rw [if_pos h5]
    exact nonneg_process_age s text hs
  rw [if_neg h5]
  by_cases h6 : s.conv = .profileActivity
  · rw [if_pos h6]
    exact nonneg_process_activity s text hs
  rw [if_neg h6]
  by_cases h7 : s.conv = .profileCity
  · rw [if_pos h7]
    exact nonneg_process_city s text env hs
  rw [if_neg h7]
  by_cases h8 : text = "Log Water"
  · rw [if_pos h8]
    exact nonneg_cmd_log_water s hs
  rw [if_neg h8]
  by_cases h9 : s.conv = .logWaterAmount
  · rw [if_pos h9]
    exact nonneg_process_log_water s text hs htext
  rw [if_neg h9]
  by_cases h10 : text = "Log Food"
  · rw [if_pos h10]
    exact nonneg_cmd_log_food s hs
  rw [if_neg h10]
  by_cases h11 : s.conv = .logFoodName
  · rw [if_pos h11]
    exact nonneg_process_log_food_name s text env hs hfood
  rw [if_neg h11]
  by_cases h12 : s.conv = .logFoodAmount
  · rw [if_pos h12]
    exact nonneg_process_log_food_amount s text hs htext
  rw [if_neg h12]
  by_cases h13 : text = "Check Progress"
  · rw [if_pos h13]
    exact nonneg_cmd_check_progress s hs
  rw [if_neg h13]
  by_cases h14 : text = "Check Food Info"
  · rw [if_pos h14]
    exact ⟨hs.1, hs.2⟩
  rw [if_neg h14]
  by_cases h15 : s.conv = .foodInfoName
  · rw [if_pos h15]
    exact nonneg_process_food_info s text env hs
  rw [if_neg h15]
  exact hs

/-- Witness for C7's amended theorem: one step on a fresh user with the
message "5". -/
theorem nonneg_invariant_step_witness :
    NonNegState (handle ⟨none, .idle, Scratch.empty⟩ "5" envNone).1 := by
  apply nonneg_invariant_step
  · exact ⟨fun p hp => Option.noConfusion hp, fun fi hfi => Option.noConfusion hfi⟩
  · intro a ha
    rw [show pyInt? "5" = some 5 from rfl] at ha
    cases ha
    decide
  · intro fi hf
    rw [show get_food_info envNone.food = none from rfl] at hf
    exact Option.noConfusion hf

/-- Witness for C9 accepting the decimal "70.5". -/
theorem weight_step_spec_witness :
    handle ⟨none, .profileWeight, Scratch.empty⟩ "70.5" envNone
      = match pyFloat? "70.5" with
        | some w =>
            (⟨none, .profileHeight, { Scratch.empty with weight := some w }⟩,
             .promptHeight)
        | none => (⟨none, .profileWeight, Scratch.empty⟩, .invalidWeight) :=
  weight_step_spec ⟨none, .profileWeight, Scratch.empty⟩ "70.5" envNone
    rfl (by decide) (by decide)

end Bot
